import Mathlib

/-!
Verification of the EduGrade grading-pipeline core against its
natural-language specification.

The Python source is shallowly embedded: dictionaries become structures
whose optional keys are `Option` fields (`.getD` mirrors `dict.get` with a
default), Python floats become exact rationals (`ℚ`), and every external
capability (the Gemini scoring call, the Perplexity fact-check call, cv2
image operations, the YOLO detector, Firestore) is a parameter of the
embedded function: the embedding covers exactly the repository's own
control flow and arithmetic.
-/

/-- One annotation attached by the Fact-Check stage under the result's
`fact_check` key (`factcheck_agent.py`).  The sequential path writes the
`skipped` / `error` shapes itself; a `success` payload comes from the
external call (abstracted, so its fields are plain data here). -/
structure FactCheck where
  status : String
  reason : Option String := none
  error : Option String := none
  accuracy_assessment : Option String := none
  alternative_answers : List String := []
  insights : List String := []
  suggestions : List String := []
  insights_note : Option String := none
  confidence : Option ℚ := none
deriving DecidableEq

/-- A per-question grading result as stored in a submission's `results`
list (`grading_agent.py` lines 69-87).  Success entries populate every
field; error entries carry only `question_number`, `status` and `error`,
so the remaining keys are `Option`s.  `fact_check` is the key merged in by
the Fact-Check stage (`{**grade_result, "fact_check": ...}`). -/
structure GradeResult where
  question_number : Int
  student_answer : Option String := none
  correct_answer : Option String := none
  score : Option ℚ := none
  max_score : Option ℚ := none
  feedback : Option String := none
  partial_credit : Option ℚ := none
  confidence : Option ℚ := none
  status : String
  teacher_override : Bool := false
  override_reason : Option String := none
  error : Option String := none
  fact_check : Option FactCheck := none
deriving DecidableEq

/-- The results with `status == "success"`: the generator filter shared by
all three aggregation sites (`store_grading_results`,
`calculate_total_score`, `_apply_teacher_overrides`). -/
def successResults (results : List GradeResult) : List GradeResult :=
  results.filter (fun r => r.status == "success")

/-- sum(r.get('score', 0) for r in results if r.get('status') == 'success') -/
def totalScoreOf (results : List GradeResult) : ℚ :=
  ((successResults results).map (fun r => r.score.getD 0)).sum

/-- sum(r.get('max_score', 0) for r in results if r.get('status') == 'success') -/
def maxScoreOf (results : List GradeResult) : ℚ :=
  ((successResults results).map (fun r => r.max_score.getD 0)).sum

/-- Python's round(x, 2) modelled on exact rationals: round half to even
at two decimal places.  (CPython rounds an IEEE double; numbers are exact
rationals throughout this embedding.) -/
def pyRound2 (q : ℚ) : ℚ :=
  let x := q * 100
  let f : Int := Int.floor x
  let frac := x - f
  let n : Int :=
    if frac < 1/2 then f
    else if frac > 1/2 then f + 1
    else if f % 2 = 0 then f else f + 1
  (n : ℚ) / 100

/-- The dictionary returned by `GradingAgent.calculate_total_score`
(`grading_agent.py` lines 230-250). -/
structure TotalScoreStats where
  total_score : ℚ
  max_total_score : ℚ
  percentage : ℚ
  questions_graded : Nat
  total_questions : Nat
deriving DecidableEq

/-- GradingAgent.calculate_total_score: one pass accumulating the three
running values, then the percentage formula with `round(percentage, 2)`. -/
def calculate_total_score (grading_results : List GradeResult) : TotalScoreStats :=
  let acc := grading_results.foldl
    (fun (a : ℚ × ℚ × Nat) r =>
      if r.status == "success" then
        (a.1 + r.score.getD 0, a.2.1 + r.max_score.getD 0, a.2.2 + 1)
      else a)
    (0, 0, 0)
  let percentage := if acc.2.1 > 0 then acc.1 / acc.2.1 * 100 else 0
  { total_score := acc.1
    max_total_score := acc.2.1
    percentage := pyRound2 percentage
    questions_graded := acc.2.2
    total_questions := grading_results.length }

/-- The partial-field update written by
`FirebaseService.store_grading_results` (`firebase_service.py` lines
199-224): sums over the `status == 'success'` results, the raw percentage
formula, and `status = 'graded'`. -/
structure GradingData where
  results : List GradeResult
  total_score : ℚ
  max_score : ℚ
  percentage : ℚ
  status : String
deriving DecidableEq

/-- FirebaseService.store_grading_results without the Firestore write
itself: the document fields it computes and stores. -/
def store_grading_results (results : List GradeResult) : GradingData :=
  let total_score := totalScoreOf results
  let max_score := maxScoreOf results
  { results := results
    total_score := total_score
    max_score := max_score
    percentage := if max_score > 0 then total_score / max_score * 100 else 0
    status := "graded" }

/-- A teacher override as posted to the approval API (`approvals.py`,
`GradeOverride`). -/
structure GradeOverride where
  question_number : Int
  new_score : ℚ
  new_feedback : String
  reason : String
deriving DecidableEq

/-- The inner loop of `_apply_teacher_overrides` for one override: rewrite
the first result whose `question_number` matches, then `break`. -/
def applyOverride (ov : GradeOverride) : List GradeResult → List GradeResult
  | [] => []
  | r :: rest =>
    if r.question_number == ov.question_number then
      { r with score := some ov.new_score, feedback := some ov.new_feedback,
               teacher_override := true, override_reason := some ov.reason } :: rest
    else r :: applyOverride ov rest

/-- The partial-field update `_apply_teacher_overrides` writes back to the
submission document (`approvals.py` lines 314-327). -/
structure OverridesUpdate where
  results : List GradeResult
  total_score : ℚ
  max_score : ℚ
  percentage : ℚ
  teacher_overrides_applied : Bool
deriving DecidableEq

/-- `_apply_teacher_overrides` (`approvals.py` lines 290-331) on the
submission's results list: apply each override in order, then recompute
the totals from the full list and the raw percentage formula. -/
def apply_teacher_overrides (results : List GradeResult)
    (overrides : List GradeOverride) : OverridesUpdate :=
  let results := overrides.foldl (fun rs ov => applyOverride ov rs) results
  let total_score := totalScoreOf results
  let max_score := maxScoreOf results
  { results := results
    total_score := total_score
    max_score := max_score
    percentage := if max_score > 0 then total_score / max_score * 100 else 0
    teacher_overrides_applied := true }

/-- A teacher-authored answer-key entry, `answer_key.get("question_<n>", {})`
(`grading_agent.py` line 62).  Missing keys default via `.get`, so every
field is optional; an absent entry is the record with all fields `none`. -/
structure QuestionKey where
  question : Option String := none
  answer : Option String := none
  max_score : Option ℚ := none
  question_type : Option String := none
deriving DecidableEq

/-- question_key.get("max_score", 1): the default shared by the clamp in
`_parse_grading_response` and the `max_score` field of the stored entry. -/
def keyMaxScore (key : QuestionKey) : ℚ :=
  key.max_score.getD 1

/-- The structured values a Gemini JSON response may carry
(`json.loads` of the matched braces is external; its output is data). -/
structure RawGradeJson where
  student_answer : Option String := none
  score : Option ℚ := none
  feedback : Option String := none
  partial_credit : Option ℚ := none
  confidence : Option ℚ := none
deriving DecidableEq

/-- The validated grade dictionary both parsing paths return
(`_parse_grading_response` / `_extract_grades_from_text`). -/
structure ParsedGrade where
  student_answer : String
  score : ℚ
  feedback : String
  partial_credit : ℚ
  confidence : ℚ
deriving DecidableEq

/-- GradingAgent._parse_grading_response, structured-JSON branch
(`grading_agent.py` lines 167-177): each value defaulted with `.get` and
clamped with max(0, min(value, bound)). -/
def parse_grading_response (raw : RawGradeJson) (question_key : QuestionKey) : ParsedGrade :=
  { student_answer := raw.student_answer.getD ""
    score := max 0 (min (raw.score.getD 0) (keyMaxScore question_key))
    feedback := raw.feedback.getD "Good effort!"
    partial_credit := max 0 (min (raw.partial_credit.getD 0) 1)
    confidence := max 0 (min (raw.confidence.getD 0.8) 1) }

/-- GradingAgent._extract_grades_from_text (`grading_agent.py` lines
186-204).  The two `re.search` scans are abstracted to their results:
`score_tok` is the integer matched by the digits group after `score`,
`conf_tok` the decimal matched after `confidence` (matched from digit/dot
characters, hence nonnegative when present).  Score is clamped; the
extracted confidence is returned as matched. -/
def extract_grades_from_text (score_tok : Option Nat) (conf_tok : Option ℚ)
    (question_key : QuestionKey) : ParsedGrade :=
  { student_answer := "Unable to transcribe"
    score := max 0 (min (score_tok.getD 0 : ℚ) (keyMaxScore question_key))
    feedback := "Please review manually"
    partial_credit := 0
    confidence := conf_tok.getD 0.8 }

/-- The success entry `GradingAgent.process` appends for a graded region
(`grading_agent.py` lines 69-79): the parsed grade joined with the answer
key's `answer` and `max_score` (same `.get` defaults as the parser). -/
def gradeEntry (question_number : Int) (question_key : QuestionKey)
    (g : ParsedGrade) : GradeResult :=
  { question_number := question_number
    student_answer := some g.student_answer
    correct_answer := some (question_key.answer.getD "")
    score := some g.score
    max_score := some (keyMaxScore question_key)
    feedback := some g.feedback
    partial_credit := some g.partial_credit
    confidence := some g.confidence
    status := "success" }

/-- One YOLO detection: a bounding box with its confidence, as read off
`result.boxes` (`segmentation_agent.py` lines 84-90).  Box corners are the
`int(...)` truncations the code stores. -/
structure Detection where
  x1 : Int
  y1 : Int
  x2 : Int
  y2 : Int
  conf : ℚ
deriving DecidableEq

/-- An answer-region descriptor as appended to `answer_boxes`
(`segmentation_agent.py`).  `region_path` and `region_size` are filesystem
artifacts of the saved crop and are not modelled; the primary path stores
no `detection_method` key (`none`), the grid fallback stores "grid". -/
structure Region where
  question_number : Int
  x1 : Int
  y1 : Int
  x2 : Int
  y2 : Int
  confidence : ℚ
  detection_method : Option String := none
deriving DecidableEq

/-- SegmentationAgent._extract_answer_regions (`segmentation_agent.py`
lines 80-112): enumerate the model's boxes, keep those with confidence
above 0.5, and number each kept region with its enumeration index + 1
(the index counts every detection, kept or not). -/
def extract_answer_regions (detections : List Detection) : List Region :=
  detections.enum.filterMap fun p =>
    if p.2.conf > 0.5 then
      some { question_number := (p.1 : Int) + 1
             x1 := p.2.x1, y1 := p.2.y1, x2 := p.2.x2, y2 := p.2.y2
             confidence := p.2.conf }
    else none

/-- One contour from cv2.findContours on the grid mask, abstracted to the
two measurements the code takes of it: `cv2.contourArea` and
`cv2.boundingRect` (`segmentation_agent.py` lines 142-146). -/
structure Contour where
  x : Int
  y : Int
  w : Int
  h : Int
  area : ℚ
deriving DecidableEq

/-- Ascending y1, the key of `answer_regions.sort(key=lambda x: y1)`. -/
def regionY1le (a b : Region) : Prop :=
  a.y1 ≤ b.y1

instance : DecidableRel regionY1le :=
  fun a b => inferInstanceAs (Decidable (a.y1 ≤ b.y1))

instance : IsTotal Region regionY1le :=
  ⟨fun a b => le_total a.y1 b.y1⟩

instance : IsTrans Region regionY1le :=
  ⟨fun _ _ _ h1 h2 => le_trans h1 h2⟩

/-- The loop body of `_detect_grid_boxes` before the sort
(`segmentation_agent.py` lines 141-162): enumerate the contours, keep
those whose area lies in (1000, 50000), and number each kept region with
its contour-discovery index + 1 (the index counts every contour, kept or
not); synthetic confidence 0.8, detection_method "grid". -/
def grid_candidate_regions (contours : List Contour) : List Region :=
  contours.enum.filterMap fun p =>
    if 1000 < p.2.area ∧ p.2.area < 50000 then
      some { question_number := (p.1 : Int) + 1
             x1 := p.2.x, y1 := p.2.y, x2 := p.2.x + p.2.w, y2 := p.2.y + p.2.h
             confidence := 0.8
             detection_method := some "grid" }
    else none

/-- SegmentationAgent._detect_grid_boxes (`segmentation_agent.py` lines
114-171): the numbered candidates sorted by ascending y1.  Python's
`list.sort` is stable; `List.insertionSort` with a non-strict key order is
the matching stable sort. -/
def detect_grid_boxes (contours : List Contour) : List Region :=
  (grid_candidate_regions contours).insertionSort regionY1le

/-- The slice of the workflow state `SegmentationAgent.process` reads and
writes (`graph/state.py`, `segmentation_agent.py` lines 45-77). -/
structure SegState where
  status : String
  error : Option String := none
  image_path : String := ""
  answer_boxes : Option (List Region) := none
deriving DecidableEq

/-- SegmentationAgent.process (`segmentation_agent.py` lines 45-77).  The
YOLO inference and cv2 calls are external: `detections` stands for what
the model returned on the state's image, `contours` for what
cv2.findContours found on the grid mask (consulted only when the primary
detector accepts nothing).  The exception branch (lines 73-77) fires only
on an external failure and is outside this pure embedding. -/
def segmentation_process (state : SegState) (detections : List Detection)
    (contours : List Contour) : SegState :=
  if state.status ≠ "preprocessing_complete" then
    { state with error := some "Image preprocessing failed or was not run"
                 status := "error" }
  else
    let answer_regions := extract_answer_regions detections
    let answer_regions :=
      if answer_regions.isEmpty then detect_grid_boxes contours else answer_regions
    { state with answer_boxes := some answer_regions
                 status := "segmentation_complete" }

/-- The annotation `fact_check_answers` attaches to a result whose grading
status is not "success" (`factcheck_agent.py` line 44). -/
def skippedAnnotation : FactCheck :=
  { status := "skipped", reason := some "grading failed" }

/-- The loop body of `FactCheckAgent.fact_check_answers` for one result
(`factcheck_agent.py` lines 40-71).  `check` abstracts
`_fact_check_single_answer` — an external API call; `Except.error`
models an exception raised by it, caught at lines 62-71. -/
def factCheckOne (check : GradeResult → Except String FactCheck)
    (g : GradeResult) : GradeResult :=
  if g.status ≠ "success" then
    { g with fact_check := some skippedAnnotation }
  else
    match check g with
    | .ok fc => { g with fact_check := some fc }
    | .error e =>
      { g with fact_check := some { status := "error", error := some e,
                                    insights_note := some "Unable to verify facts" } }

/-- FactCheckAgent.fact_check_answers (`factcheck_agent.py` lines 34-73):
the sequential path, one appended result per input in order. -/
def fact_check_answers (check : GradeResult → Except String FactCheck)
    (grading_results : List GradeResult) : List GradeResult :=
  grading_results.map (factCheckOne check)

/-- The per-item combination step of `FactCheckAgent.batch_fact_check`
(`factcheck_agent.py` lines 243-256): every item of a batch goes through
`_fact_check_single_answer`; an exception gathered for an item becomes its
error annotation.  There is no grading-status test on this path. -/
def batchStep (check : GradeResult → Except String FactCheck)
    (g : GradeResult) : GradeResult :=
  match check g with
  | .ok fc => { g with fact_check := some fc }
  | .error e => { g with fact_check := some { status := "error", error := some e } }

/-- FactCheckAgent.batch_fact_check (`factcheck_agent.py` lines 231-262):
slice the input into batches of `batch_size`, process each batch, and
append the batch results in order (the inter-batch sleep is timing only). -/
def batch_fact_check (check : GradeResult → Except String FactCheck)
    (batch_size : Nat) : List GradeResult → List GradeResult
  | [] => []
  | g :: rest =>
    (batchStep check g :: (rest.take (batch_size - 1)).map (batchStep check))
      ++ batch_fact_check check batch_size (rest.drop (batch_size - 1))
termination_by l => l.length
decreasing_by simp [List.length_drop]; omega

/-- The dimensions tuple `binarized_image.shape` reported for a processed
image (`preprocessing_agent.py` line 54). -/
structure Dims where
  height : Nat
  width : Nat
  channels : Nat
deriving DecidableEq

/-- One uploaded image as the preprocessing loop observes it
(`preprocessing_agent.py` lines 29-65).  `loaded = none` models
`cv2.imread` returning None; otherwise the outcome of the external
cv2/PIL enhancement pipeline on that image: the saved artifact path and
its dimensions, or the message of an exception raised along the way. -/
structure ImageJob where
  file_path : String
  loaded : Option (Except String (String × Dims))

/-- One outcome dictionary appended by `process_images`: the success shape
(lines 51-56) or the error shape (lines 60-65). -/
structure ImageEntry where
  original_path : String
  processed_path : Option String
  dimensions : Option Dims := none
  error : Option String := none
  status : String
deriving DecidableEq

/-- The entry `process_images` appends for one image, when it appends one:
the unloadable-image branch (line 37) logs and `continue`s, appending
nothing. -/
def process_one_image (job : ImageJob) : Option ImageEntry :=
  match job.loaded with
  | none => none
  | some (.ok (p, d)) =>
    some { original_path := job.file_path, processed_path := some p,
           dimensions := some d, status := "success" }
  | some (.error e) =>
    some { original_path := job.file_path, processed_path := none,
           error := some e, status := "error" }

/-- PreprocessingAgent.process_images (`preprocessing_agent.py` lines
23-67): the outcome list the loop accumulates. -/
def process_images (jobs : List ImageJob) : List ImageEntry :=
  jobs.filterMap process_one_image

/-- A persisted submission document, the fields the approval and report
paths read and write (`firebase_service.py`, `approvals.py`).  Timestamps
are abstract counters. -/
structure Submission where
  id : String
  exam_id : String := ""
  student_id : String := ""
  student_name : String := ""
  teacher_id : String := ""
  status : String
  results : List GradeResult := []
  total_score : ℚ := 0
  max_score : ℚ := 0
  percentage : ℚ := 0
  teacher_overrides_applied : Bool := false
  approved : Bool := false
  approved_by : Option String := none
  approved_at : Option Nat := none
  created_at : Nat := 0
deriving DecidableEq

/-- The approval request body (`approvals.py`, `ApprovalRequest`);
`overrides: Optional[List[GradeOverride]] = None` and the `if
approval_request.overrides:` test make None and [] equivalent, so a plain
list suffices. -/
structure ApprovalRequest where
  teacher_id : String
  overrides : List GradeOverride := []
  comments : Option String := none

/-- The three rejection branches of `approve_submission` (`approvals.py`
lines 61-79), in the order the code tests them: 404 not found, 400 not
ready (current status quoted), 403 permission denied. -/
inductive ApproveError where
  | notFound
  | notReady (current : String)
  | forbidden
deriving DecidableEq

/-- FirebaseService.approve_submission (`firebase_service.py` lines
227-251): the partial-field update stamped on the document. -/
def firebase_approve (sub : Submission) (teacher_id : String) (now : Nat) : Submission :=
  { sub with approved := true, approved_by := some teacher_id,
             approved_at := some now, status := "approved" }

/-- `_apply_teacher_overrides` viewed as the update it performs on a whole
stored submission record. -/
def submission_apply_overrides (sub : Submission)
    (overrides : List GradeOverride) : Submission :=
  let u := apply_teacher_overrides sub.results overrides
  { sub with results := u.results, total_score := u.total_score,
             max_score := u.max_score, percentage := u.percentage,
             teacher_overrides_applied := u.teacher_overrides_applied }

/-- The `approve_submission` endpoint body (`approvals.py` lines 51-121)
over the one stored submission it touches: `db` is the stored record (or
none), and the result pairs the HTTP outcome with the stored record after
the call, so the guard branches demonstrably leave the store untouched. -/
def approve_submission (db : Option Submission) (req : ApprovalRequest)
    (now : Nat) : Except ApproveError Submission × Option Submission :=
  match db with
  | none => (.error .notFound, none)
  | some sub =>
    if sub.status ≠ "pending_review" then
      (.error (.notReady sub.status), some sub)
    else if sub.teacher_id ≠ req.teacher_id then
      (.error .forbidden, some sub)
    else
      let sub := if req.overrides.isEmpty then sub
                 else submission_apply_overrides sub req.overrides
      let sub := firebase_approve sub req.teacher_id now
      (.ok sub, some sub)

/-- The report payload `get_single_report` returns on success
(`approvals.py` lines 267-279); exam title and feedback strings are
external lookups and omitted. -/
structure Report where
  submission_id : String
  student_id : String
  student_name : String
  total_score : ℚ
  max_score : ℚ
  percentage : ℚ
  results : List GradeResult
  approved_at : Option Nat
deriving DecidableEq

/-- The rejection branches of `get_single_report` (`approvals.py` lines
245-262): 404 missing, 404 not approved yet, 403 not this student's. -/
inductive ReportError where
  | notFound
  | notApproved
  | notOwned
deriving DecidableEq

/-- The `get_single_report` endpoint body (`approvals.py` lines 236-288):
gate on `status == 'approved'` and on the submission's `student_id`, in
that order; only the success branch carries submission data. -/
def get_single_report (db : Option Submission) (student_id : String) :
    Except ReportError Report :=
  match db with
  | none => .error .notFound
  | some sub =>
    if sub.status ≠ "approved" then .error .notApproved
    else if sub.student_id ≠ student_id then .error .notOwned
    else .ok { submission_id := sub.id, student_id := student_id,
               student_name := sub.student_name, total_score := sub.total_score,
               max_score := sub.max_score, percentage := sub.percentage,
               results := sub.results, approved_at := sub.approved_at }

/-- Descending created_at, the order of the Firestore
`order_by('created_at', DESCENDING)` clause. -/
def createdDesc (a b : Submission) : Prop :=
  b.created_at ≤ a.created_at

instance : DecidableRel createdDesc :=
  fun a b => inferInstanceAs (Decidable (b.created_at ≤ a.created_at))

/-- FirebaseService.get_student_reports (`firebase_service.py` lines
276-297): the Firestore query filtered on `student_id` and
`status == 'approved'`, newest first. -/
def get_student_reports (db : List Submission) (student_id : String) :
    List Submission :=
  (db.filter fun s => s.student_id == student_id && s.status == "approved").insertionSort
    createdDesc

/-! ## Aggregation lemmas and the C1 claim -/

/-- The accumulator pass of `calculate_total_score` computes the same sums
as the generator expressions of the other two aggregation sites. -/
theorem calc_fold_eq (results : List GradeResult) (a b : ℚ) (n : Nat) :
    results.foldl
      (fun (x : ℚ × ℚ × Nat) r =>
        if r.status == "success" then
          (x.1 + r.score.getD 0, x.2.1 + r.max_score.getD 0, x.2.2 + 1)
        else x)
      (a, b, n)
    = (a + totalScoreOf results, b + maxScoreOf results,
        n + (successResults results).length) := by
  induction results generalizing a b n with
  | nil => simp [totalScoreOf, maxScoreOf, successResults]
  | cons r rest ih =>
    rw [List.foldl_cons]
    by_cases h : r.status = "success"
    · rw [if_pos (by simp [h]), ih]
      have ht : totalScoreOf (r :: rest) = r.score.getD 0 + totalScoreOf rest := by
        simp [totalScoreOf, successResults, List.filter_cons, h]
      have hm : maxScoreOf (r :: rest) = r.max_score.getD 0 + maxScoreOf rest := by
        simp [maxScoreOf, successResults, List.filter_cons, h]
      have hl : (successResults (r :: rest)).length = (successResults rest).length + 1 := by
        simp [successResults, List.filter_cons, h]
      rw [ht, hm, hl]
      simp only [Prod.mk.injEq]
      refine ⟨by ring, by ring, by omega⟩
    · rw [if_neg (by simp [h]), ih]
      have ht : totalScoreOf (r :: rest) = totalScoreOf rest := by
        simp [totalScoreOf, successResults, List.filter_cons, h]
      have hm : maxScoreOf (r :: rest) = maxScoreOf rest := by
        simp [maxScoreOf, successResults, List.filter_cons, h]
      have hl : (successResults (r :: rest)).length = (successResults rest).length := by
        simp [successResults, List.filter_cons, h]
      rw [ht, hm, hl]

/-- `calculate_total_score` in closed form over the shared sums. -/
theorem calculate_total_score_eq (results : List GradeResult) :
    calculate_total_score results =
      { total_score := totalScoreOf results
        max_total_score := maxScoreOf results
        percentage := pyRound2 (if maxScoreOf results > 0
          then totalScoreOf results / maxScoreOf results * 100 else 0)
        questions_graded := (successResults results).length
        total_questions := results.length } := by
  unfold calculate_total_score
  rw [calc_fold_eq]
  simp

/-- C1 (amended).  At all three aggregation sites total and max are
recomputed from the full results list as sums over the `status="success"`
results, and the percentage is `total/max*100` when `max > 0` and `0`
otherwise — but the 2-decimal rounding is applied only by
`calculate_total_score`; `store_grading_results` and the teacher-override
recomputation store the raw, unrounded ratio. -/
theorem percentage_sites (results : List GradeResult) (overrides : List GradeOverride) :
    (store_grading_results results).total_score = totalScoreOf results
  ∧ (store_grading_results results).max_score = maxScoreOf results
  ∧ (store_grading_results results).percentage
      = (if maxScoreOf results > 0
         then totalScoreOf results / maxScoreOf results * 100 else 0)
  ∧ (calculate_total_score results).total_score = totalScoreOf results
  ∧ (calculate_total_score results).max_total_score = maxScoreOf results
  ∧ (calculate_total_score results).percentage
      = pyRound2 (if maxScoreOf results > 0
                  then totalScoreOf results / maxScoreOf results * 100 else 0)
  ∧ (apply_teacher_overrides results overrides).results
      = overrides.foldl (fun rs ov => applyOverride ov rs) results
  ∧ (apply_teacher_overrides results overrides).total_score
      = totalScoreOf ((apply_teacher_overrides results overrides).results)
  ∧ (apply_teacher_overrides results overrides).max_score
      = maxScoreOf ((apply_teacher_overrides results overrides).results)
  ∧ (apply_teacher_overrides results overrides).percentage
      = (if maxScoreOf ((apply_teacher_overrides results overrides).results) > 0
         then totalScoreOf ((apply_teacher_overrides results overrides).results)
              / maxScoreOf ((apply_teacher_overrides results overrides).results) * 100
         else 0) := by
  refine ⟨rfl, rfl, rfl, ?_, ?_, ?_, rfl, rfl, rfl, rfl⟩ <;>
    rw [calculate_total_score_eq]

/-- A one-question submission fully correct on a 3-point scale of 1
awarded point: percentage 100/3. -/
def c1res : GradeResult :=
  { question_number := 1, score := some 1, max_score := some 3, status := "success" }

/-- C1 (counterexample).  The percentage stored at initial result storage
is the raw ratio 100/3, not its 2-decimal rounding 33.33: the claim's
rounding clause fails at `store_grading_results` (and likewise on the
override path, which uses the same unrounded formula). -/
theorem store_percentage_unrounded_cex :
    (store_grading_results [c1res]).percentage
      ≠ pyRound2 ((store_grading_results [c1res]).total_score
          / (store_grading_results [c1res]).max_score * 100) := by
  simp only [store_grading_results, totalScoreOf, maxScoreOf, successResults, pyRound2, c1res]
  norm_num

/-! ## Teacher overrides: the C2 and C10 claims -/

/-- An override whose question number matches no result leaves the results
list untouched (the inner loop finds nothing to rewrite). -/
theorem applyOverride_no_match (ov : GradeOverride) (results : List GradeResult)
    (h : ∀ r ∈ results, r.question_number ≠ ov.question_number) :
    applyOverride ov results = results := by
  induction results with
  | nil => rfl
  | cons r rest ih =>
    have hr : r.question_number ≠ ov.question_number := h r (List.mem_cons_self r rest)
    rw [applyOverride, if_neg (by simp [hr])]
    exact congrArg (r :: ·) (ih fun x hx => h x (List.mem_cons_of_mem _ hx))

/-- C10.  An override request whose `question_number` matches no entry
completes without error: no result is modified, yet
`teacher_overrides_applied` is still set and the totals and percentage are
still recomputed from the (unchanged) full results list. -/
theorem override_without_match_total (results : List GradeResult) (ov : GradeOverride)
    (h : ∀ r ∈ results, r.question_number ≠ ov.question_number) :
    apply_teacher_overrides results [ov] =
      { results := results
        total_score := totalScoreOf results
        max_score := maxScoreOf results
        percentage := if maxScoreOf results > 0
          then totalScoreOf results / maxScoreOf results * 100 else 0
        teacher_overrides_applied := true } := by
  unfold apply_teacher_overrides
  rw [List.foldl_cons, List.foldl_nil, applyOverride_no_match ov results h]

/-- A one-question submission used to exercise the no-match override. -/
def w10res : GradeResult :=
  { question_number := 1, score := some 1, max_score := some 1, status := "success" }

/-- An override aimed at a question number absent from the results. -/
def w10ov : GradeOverride :=
  { question_number := 2, new_score := 3, new_feedback := "adjusted", reason := "no such question" }

/-- Witness for the C10 theorem at a concrete submission and override. -/
theorem override_without_match_total_witness :
    (∀ r ∈ [w10res], r.question_number ≠ w10ov.question_number)
    ∧ apply_teacher_overrides [w10res] [w10ov] =
        { results := [w10res]
          total_score := totalScoreOf [w10res]
          max_score := maxScoreOf [w10res]
          percentage := if maxScoreOf [w10res] > 0
            then totalScoreOf [w10res] / maxScoreOf [w10res] * 100 else 0
          teacher_overrides_applied := true } :=
  ⟨by decide, override_without_match_total [w10res] w10ov (by decide)⟩

/-- A fully-scored one-point question, satisfying the invariant before any
override. -/
def c2res : GradeResult :=
  { question_number := 1, score := some 1, max_score := some 1, status := "success" }

/-- A teacher override granting 5 points on the 1-point question. -/
def c2ov : GradeOverride :=
  { question_number := 1, new_score := 5, new_feedback := "generous", reason := "bonus" }

/-- C2 (counterexample).  After the override `{question 1, new_score 5}`
on a result with `max_score = 1`, the rewritten result has score 5 > 1:
the override path does not preserve `score ≤ max_score`. -/
theorem override_score_exceeds_max_cex :
    ¬ (∀ r ∈ (apply_teacher_overrides [c2res] [c2ov]).results,
        r.score.getD 0 ≤ r.max_score.getD 0) := by decide

/-- C2 (amended).  `score ≤ max_score` does hold when a result is first
accepted from the AI response (the clamp bounds the score by the same
`max_score` the entry stores, provided the key's max score is
nonnegative), but an override rewrites the matched result's score to
exactly `new_score` with `max_score` unchanged, so the invariant survives
an override only when `new_score ≤ max_score`. -/
theorem score_le_max_amended (raw : RawGradeJson) (key : QuestionKey)
    (hm : 0 ≤ keyMaxScore key) (qn : Int) (r : GradeResult)
    (rest : List GradeResult) (ov : GradeOverride)
    (hq : r.question_number = ov.question_number) :
    (gradeEntry qn key (parse_grading_response raw key)).score.getD 0
      ≤ (gradeEntry qn key (parse_grading_response raw key)).max_score.getD 0
    ∧ applyOverride ov (r :: rest)
        = { r with score := some ov.new_score, feedback := some ov.new_feedback,
                   teacher_override := true, override_reason := some ov.reason } :: rest := by
  constructor
  · simp only [gradeEntry, parse_grading_response, Option.getD_some]
    exact max_le hm (min_le_right _ _)
  · rw [applyOverride, if_pos (by simp [hq])]

/-- A raw AI response with an out-of-range score. -/
def w2raw : RawGradeJson := { score := some 9, confidence := some 2 }

/-- A 2-point answer-key entry. -/
def w2key : QuestionKey := { answer := some "4", max_score := some 2 }

/-- The result the override below rewrites. -/
def w2res : GradeResult :=
  { question_number := 4, score := some 2, max_score := some 2, status := "success" }

/-- An override exceeding the question's max score. -/
def w2ov : GradeOverride :=
  { question_number := 4, new_score := 7, new_feedback := "bumped", reason := "partial effort" }

/-- Witness for the amended C2 theorem at concrete data. -/
theorem score_le_max_amended_witness :
    (0 ≤ keyMaxScore w2key ∧ w2res.question_number = w2ov.question_number)
    ∧ ((gradeEntry 4 w2key (parse_grading_response w2raw w2key)).score.getD 0
        ≤ (gradeEntry 4 w2key (parse_grading_response w2raw w2key)).max_score.getD 0
      ∧ applyOverride w2ov (w2res :: [])
          = { w2res with score := some w2ov.new_score, feedback := some w2ov.new_feedback,
                         teacher_override := true, override_reason := some w2ov.reason } :: []) :=
  ⟨⟨by decide, by decide⟩,
    score_le_max_amended w2raw w2key (by decide) 4 w2res [] w2ov (by decide)⟩

/-! ## Response validation: the C4 claim -/

/-- C4 (counterexample).  A free-text response carrying `confidence: 2`
reaches the fallback extraction, which stores 2 > 1: the confidence clamp
does not apply on the text-pattern path. -/
theorem fallback_confidence_unclamped_cex :
    ¬ ((extract_grades_from_text (some 1) (some 2)
        { max_score := some 1 }).confidence ≤ 1) := by decide

/-- C4 (amended).  On the structured-JSON path all three clamps hold
(score within [0, max_score] given a nonnegative key max score,
partial_credit and confidence within [0,1], whatever the raw response
supplied).  On the text-fallback path the score is clamped the same way
and partial_credit is the constant 0, but the confidence is stored exactly
as extracted: nonnegative (the regex matches digit/dot text only) yet
unbounded above. -/
theorem clamp_ranges_amended (raw : RawGradeJson) (key : QuestionKey)
    (score_tok : Option Nat) (conf_tok : Option ℚ)
    (hm : 0 ≤ keyMaxScore key) (hc : ∀ c, conf_tok = some c → 0 ≤ c) :
    (0 ≤ (parse_grading_response raw key).score
      ∧ (parse_grading_response raw key).score ≤ keyMaxScore key
      ∧ 0 ≤ (parse_grading_response raw key).partial_credit
      ∧ (parse_grading_response raw key).partial_credit ≤ 1
      ∧ 0 ≤ (parse_grading_response raw key).confidence
      ∧ (parse_grading_response raw key).confidence ≤ 1)
    ∧ (0 ≤ (extract_grades_from_text score_tok conf_tok key).score
      ∧ (extract_grades_from_text score_tok conf_tok key).score ≤ keyMaxScore key
      ∧ (extract_grades_from_text score_tok conf_tok key).partial_credit = 0
      ∧ 0 ≤ (extract_grades_from_text score_tok conf_tok key).confidence
      ∧ (extract_grades_from_text score_tok conf_tok key).confidence = conf_tok.getD 0.8) := by
  refine ⟨⟨le_max_left 0 _, max_le hm (min_le_right _ _),
           le_max_left 0 _, max_le (by norm_num) (min_le_right _ _),
           le_max_left 0 _, max_le (by norm_num) (min_le_right _ _)⟩,
          le_max_left 0 _, max_le hm (min_le_right _ _), rfl, ?_, rfl⟩
  cases h : conf_tok with
  | none => simp [extract_grades_from_text]; norm_num
  | some c => simp [extract_grades_from_text, hc c h]

/-- A 3-point answer-key entry used by the clamp witness. -/
def w4key : QuestionKey := { max_score := some 3 }

/-- Witness for the amended C4 theorem at concrete data. -/
theorem clamp_ranges_amended_witness :
    (0 ≤ keyMaxScore w4key ∧ (∀ c, (some (2:ℚ)) = some c → 0 ≤ c))
    ∧ ((0 ≤ (parse_grading_response w2raw w4key).score
      ∧ (parse_grading_response w2raw w4key).score ≤ keyMaxScore w4key
      ∧ 0 ≤ (parse_grading_response w2raw w4key).partial_credit
      ∧ (parse_grading_response w2raw w4key).partial_credit ≤ 1
      ∧ 0 ≤ (parse_grading_response w2raw w4key).confidence
      ∧ (parse_grading_response w2raw w4key).confidence ≤ 1)
    ∧ (0 ≤ (extract_grades_from_text (some 1) (some 2) w4key).score
      ∧ (extract_grades_from_text (some 1) (some 2) w4key).score ≤ keyMaxScore w4key
      ∧ (extract_grades_from_text (some 1) (some 2) w4key).partial_credit = 0
      ∧ 0 ≤ (extract_grades_from_text (some 1) (some 2) w4key).confidence
      ∧ (extract_grades_from_text (some 1) (some 2) w4key).confidence
          = (some (2:ℚ)).getD 0.8)) :=
  ⟨⟨by decide, fun c h => by injection h with h2; rw [← h2]; norm_num⟩,
    clamp_ranges_amended w2raw w4key (some 1) (some 2) (by decide)
      (fun c h => by injection h with h2; rw [← h2]; norm_num)⟩

/-! ## Grid-fallback segmentation: the C3 claim -/

/-- Contour discovered second but standing higher on the page. -/
def c3c0 : Contour := { x := 0, y := 100, w := 50, h := 40, area := 2000 }

/-- Contour discovered second, with the smaller y. -/
def c3c1 : Contour := { x := 0, y := 50, w := 50, h := 40, area := 2000 }

/-- C3 (counterexample).  With two acceptable contours discovered in
bottom-first order, the fallback returns question numbers [2, 1]: the k-th
region does not carry question number k, because numbers are assigned by
contour-discovery index before the y1 sort. -/
theorem grid_numbering_cex :
    ¬ ((detect_grid_boxes [c3c0, c3c1]).map Region.question_number
        = (List.range (detect_grid_boxes [c3c0, c3c1]).length).map
            (fun k => (k : Int) + 1)) := by decide

/-- C3 (amended).  The fallback's returned sequence is sorted by ascending
y1 (non-strictly: ties keep discovery order under the stable sort), and it
is a permutation of the candidate regions, each of which carries the
synthetic confidence 0.8, detection method "grid", and a question number
equal to its contour-discovery index + 1 (an index over all discovered
contours, kept or area-rejected) — numbering happens before sorting, so
the k-th returned region need not carry question number k. -/
theorem grid_fallback_sorted_amended (contours : List Contour) :
    List.Sorted regionY1le (detect_grid_boxes contours)
    ∧ (detect_grid_boxes contours).Perm (grid_candidate_regions contours)
    ∧ ∀ r ∈ detect_grid_boxes contours,
        r.confidence = 0.8 ∧ r.detection_method = some "grid"
        ∧ ∃ p ∈ contours.enum, (1000 < p.2.area ∧ p.2.area < 50000)
            ∧ r.question_number = (p.1 : Int) + 1 ∧ r.y1 = p.2.y := by
  refine ⟨List.sorted_insertionSort regionY1le _, List.perm_insertionSort _ _, ?_⟩
  intro r hr
  have hr' : r ∈ grid_candidate_regions contours :=
    (List.perm_insertionSort regionY1le _).mem_iff.mp hr
  rw [grid_candidate_regions, List.mem_filterMap] at hr'
  obtain ⟨p, hp, hf⟩ := hr'
  by_cases harea : 1000 < p.2.area ∧ p.2.area < 50000
  · rw [if_pos harea] at hf
    obtain rfl := Option.some_inj.mp hf
    exact ⟨rfl, rfl, p, hp, harea, rfl, rfl⟩
  · rw [if_neg harea] at hf
    exact absurd hf (by simp)

/-- A single in-band contour for the witness. -/
def w3con : Contour := { x := 2, y := 5, w := 10, h := 10, area := 2000 }

/-- The region the fallback produces for `w3con`. -/
def w3region : Region :=
  { question_number := 1, x1 := 2, y1 := 5, x2 := 12, y2 := 15,
    confidence := 0.8, detection_method := some "grid" }

/-- Witness for the amended C3 theorem at a concrete contour list. -/
theorem grid_fallback_sorted_amended_witness :
    w3region ∈ detect_grid_boxes [w3con]
    ∧ (w3region.confidence = 0.8 ∧ w3region.detection_method = some "grid"
        ∧ ∃ p ∈ [w3con].enum, (1000 < p.2.area ∧ p.2.area < 50000)
            ∧ w3region.question_number = (p.1 : Int) + 1 ∧ w3region.y1 = p.2.y) :=
  have hm : w3region ∈ detect_grid_boxes [w3con] := by
    rw [show detect_grid_boxes [w3con] = [w3region] from rfl]
    exact List.mem_singleton_self w3region
  ⟨hm, (grid_fallback_sorted_amended [w3con]).2.2 w3region hm⟩

/-! ## Stage precondition and approval guards: the C6 and C5 claims -/

/-- C6.  On any state whose status is not "preprocessing_complete", the
Segmentation stage sets the error status and message and returns without
touching `answer_boxes` — no detection happens (the detections and
contours parameters are irrelevant to the result). -/
theorem segmentation_precondition_guard (state : SegState)
    (detections : List Detection) (contours : List Contour)
    (h : state.status ≠ "preprocessing_complete") :
    (segmentation_process state detections contours).status = "error"
    ∧ (segmentation_process state detections contours).error
        = some "Image preprocessing failed or was not run"
    ∧ (segmentation_process state detections contours).answer_boxes
        = state.answer_boxes := by
  rw [segmentation_process, if_pos h]
  exact ⟨rfl, rfl, rfl⟩

/-- A state still in the upload phase. -/
def w6state : SegState := { status := "uploaded" }

/-- Witness for the C6 theorem at a concrete state. -/
theorem segmentation_precondition_guard_witness :
    w6state.status ≠ "preprocessing_complete"
    ∧ ((segmentation_process w6state [] []).status = "error"
      ∧ (segmentation_process w6state [] []).error
          = some "Image preprocessing failed or was not run"
      ∧ (segmentation_process w6state [] []).answer_boxes = w6state.answer_boxes) :=
  ⟨by decide, segmentation_precondition_guard w6state [] [] (by decide)⟩

/-- C5.  An approve request from a teacher who does not own a
pending-review submission is rejected with the permission-denied error,
and the stored record after the call is the unchanged submission — no
override is applied, no approval metadata is written, and the status is
still "pending_review". -/
theorem approve_nonowner_rejected (sub : Submission) (req : ApprovalRequest) (now : Nat)
    (hs : sub.status = "pending_review") (ht : sub.teacher_id ≠ req.teacher_id) :
    approve_submission (some sub) req now = (.error .forbidden, some sub) := by
  rw [approve_submission]
  rw [if_neg (by simp [hs]), if_pos ht]

/-- A pending-review submission owned by teacher "t-owner". -/
def w5sub : Submission :=
  { id := "s1", teacher_id := "t-owner", student_id := "kid", status := "pending_review" }

/-- An approve request from a different teacher, overrides included. -/
def w5req : ApprovalRequest :=
  { teacher_id := "t-other", overrides := [w2ov] }

/-- Witness for the C5 theorem at a concrete submission and request. -/
theorem approve_nonowner_rejected_witness :
    (w5sub.status = "pending_review" ∧ w5sub.teacher_id ≠ w5req.teacher_id)
    ∧ approve_submission (some w5sub) w5req 0 = (.error .forbidden, some w5sub) :=
  ⟨⟨by decide, by decide⟩, approve_nonowner_rejected w5sub w5req 0 rfl (by decide)⟩

/-! ## Fact-Check skip semantics: the C7 claim -/

/-- Batching only groups work: the batch path's output is the elementwise
`batchStep` image of the input, in input order. -/
theorem batch_fact_check_eq_map_aux (check : GradeResult → Except String FactCheck)
    (bs : Nat) :
    ∀ (n : Nat) (l : List GradeResult), l.length ≤ n →
      batch_fact_check check bs l = l.map (batchStep check) := by
  intro n
  induction n with
  | zero =>
    intro l hl
    obtain rfl : l = [] := List.eq_nil_of_length_eq_zero (Nat.le_zero.mp hl)
    simp [batch_fact_check]
  | succ n ih =>
    intro l hl
    cases l with
    | nil => simp [batch_fact_check]
    | cons g rest =>
      rw [batch_fact_check]
      rw [ih (rest.drop (bs - 1)) (by simp [List.length_drop] at hl ⊢; omega)]
      rw [List.cons_append, ← List.map_append, List.take_append_drop, List.map_cons]

/-- The batch path, closed form. -/
theorem batch_fact_check_eq_map (check : GradeResult → Except String FactCheck)
    (bs : Nat) (l : List GradeResult) :
    batch_fact_check check bs l = l.map (batchStep check) :=
  batch_fact_check_eq_map_aux check bs l.length l le_rfl

/-- A grading result that failed, as the grading stage records it. -/
def c7err : GradeResult :=
  { question_number := 1, status := "error", error := some "grading call failed" }

/-- An external fact-check oracle that always answers successfully. -/
def c7check : GradeResult → Except String FactCheck :=
  fun _ => .ok { status := "success", confidence := some 1 }

/-- C7 (counterexample).  The batch-mode path runs the external call on a
`status="error"` result and attaches the call's success annotation, not
the `{skipped, grading failed}` annotation the claim requires of both
paths. -/
theorem batch_no_skip_cex :
    (batch_fact_check c7check 5 [c7err]).map (fun g => g.fact_check)
      ≠ [some skippedAnnotation] := by
  rw [batch_fact_check_eq_map]
  decide

/-- C7 (amended).  The sequential path maps each result independently; a
result with non-"success" grading status gets exactly the
`{skipped, grading failed}` annotation with no dependence on the external
oracle, and re-running the sequential step on it reproduces the same
annotation.  The batch-mode path, however, has no grading-status test: it
runs the external call on every result, non-"success" ones included. -/
theorem factcheck_skip_amended (check check2 : GradeResult → Except String FactCheck)
    (items : List GradeResult) (g : GradeResult) (hg : g.status ≠ "success") :
    fact_check_answers check items = items.map (factCheckOne check)
    ∧ factCheckOne check g = { g with fact_check := some skippedAnnotation }
    ∧ factCheckOne check (factCheckOne check2 g) = factCheckOne check2 g
    ∧ batch_fact_check check 5 items = items.map (batchStep check)
    ∧ (∀ fc, check g = .ok fc → batchStep check g = { g with fact_check := some fc }) := by
  refine ⟨rfl, ?_, ?_, batch_fact_check_eq_map check 5 items, ?_⟩
  · simp [factCheckOne, hg]
  · simp [factCheckOne, hg]
  · intro fc hfc
    simp [batchStep, hfc]

/-- Witness for the amended C7 theorem at concrete data. -/
theorem factcheck_skip_amended_witness :
    c7err.status ≠ "success"
    ∧ (fact_check_answers c7check [c7err] = [c7err].map (factCheckOne c7check)
      ∧ factCheckOne c7check c7err = { c7err with fact_check := some skippedAnnotation }
      ∧ factCheckOne c7check (factCheckOne c7check c7err) = factCheckOne c7check c7err
      ∧ batch_fact_check c7check 5 [c7err] = [c7err].map (batchStep c7check)
      ∧ (∀ fc, c7check c7err = .ok fc →
          batchStep c7check c7err = { c7err with fact_check := some fc })) :=
  ⟨by decide, factcheck_skip_amended c7check c7check [c7err] c7err (by decide)⟩

/-! ## Preprocessing outcome entries: the C8 claim -/

/-- The loop records exactly one entry per loadable image: the output
length is the number of inputs whose `cv2.imread` succeeded. -/
theorem process_images_length (jobs : List ImageJob) :
    (process_images jobs).length
      = (jobs.filter (fun j => j.loaded.isSome)).length := by
  induction jobs with
  | nil => rfl
  | cons j rest ih =>
    simp only [process_images] at ih
    cases hj : j.loaded with
    | none =>
      simp [process_images, List.filterMap_cons, process_one_image, hj,
        List.filter_cons, ih]
    | some v =>
      cases v with
      | ok pd =>
        obtain ⟨p, d⟩ := pd
        simp [process_images, List.filterMap_cons, process_one_image, hj,
          List.filter_cons, ih]
      | error e =>
        simp [process_images, List.filterMap_cons, process_one_image, hj,
          List.filter_cons, ih]

/-- An upload whose image `cv2.imread` cannot load. -/
def c8job : ImageJob := { file_path := "a.png", loaded := none }

/-- C8 (counterexample).  One input image that cannot be loaded produces
zero outcome entries, not one: the unloadable-image branch `continue`s
without recording an error entry. -/
theorem unloadable_image_no_entry_cex :
    (process_images [c8job]).length ≠ 1 := by decide

/-- C8 (amended).  The stage records exactly one outcome entry per
loadable input — success with artifact path and dimensions, or error with
the exception message — and one image's outcome never affects the others
(processing distributes over concatenation).  An image that cannot be
loaded is skipped with no entry at all, so the output has one entry per
loadable input rather than one per input. -/
theorem preprocessing_entries_amended (jobs a b : List ImageJob) (j : ImageJob)
    (art : String) (d : Dims) (e : String) :
    (process_images jobs).length = (jobs.filter (fun j => j.loaded.isSome)).length
    ∧ process_images (a ++ b) = process_images a ++ process_images b
    ∧ (j.loaded = none → process_one_image j = none)
    ∧ (j.loaded = some (.ok (art, d)) →
        process_one_image j
          = some { original_path := j.file_path, processed_path := some art,
                   dimensions := some d, status := "success" })
    ∧ (j.loaded = some (.error e) →
        process_one_image j
          = some { original_path := j.file_path, processed_path := none,
                   error := some e, status := "error" }) := by
  refine ⟨process_images_length jobs, ?_, ?_, ?_, ?_⟩
  · simp [process_images, List.filterMap_append]
  · intro h; simp [process_one_image, h]
  · intro h; simp [process_one_image, h]
  · intro h; simp [process_one_image, h]

/-- An upload that preprocesses cleanly. -/
def w8ok : ImageJob :=
  { file_path := "b.png",
    loaded := some (.ok ("data/processed/b_processed.png", ⟨100, 80, 3⟩)) }

/-- An upload whose enhancement pipeline raises. -/
def w8err : ImageJob :=
  { file_path := "c.png", loaded := some (.error "cv2 raised") }

/-- Witness for the amended C8 theorem at the three entry shapes. -/
theorem preprocessing_entries_amended_witness :
    (w8err.loaded = some (.error "cv2 raised")
      ∧ w8ok.loaded = some (.ok ("data/processed/b_processed.png", ⟨100, 80, 3⟩))
      ∧ c8job.loaded = none)
    ∧ (process_one_image w8err
        = some { original_path := w8err.file_path, processed_path := none,
                 error := some "cv2 raised", status := "error" }
      ∧ process_one_image w8ok
        = some { original_path := w8ok.file_path,
                 processed_path := some "data/processed/b_processed.png",
                 dimensions := some ⟨100, 80, 3⟩, status := "success" }
      ∧ process_one_image c8job = none) :=
  ⟨⟨rfl, rfl, rfl⟩,
    (preprocessing_entries_amended [w8ok, w8err, c8job] [w8ok] [w8err, c8job] w8err
        "x" ⟨1, 1, 1⟩ "cv2 raised").2.2.2.2 rfl,
    (preprocessing_entries_amended [w8ok, w8err, c8job] [w8ok] [w8err, c8job] w8ok
        "data/processed/b_processed.png" ⟨100, 80, 3⟩ "e").2.2.2.1 rfl,
    (preprocessing_entries_amended [w8ok, w8err, c8job] [w8ok] [w8err, c8job] c8job
        "x" ⟨1, 1, 1⟩ "e").2.2.1 rfl⟩

/-! ## Parent-facing report gating: the C9 claim -/

/-- C9.  The single-report endpoint returns a report exactly when the
stored submission exists, is approved, and belongs to the requesting
student — every other case is an error value carrying no submission data —
and every submission the parent-facing listing returns belongs to the
requested student and is approved. -/
theorem parent_report_gating (db : Option Submission) (student_id : String)
    (subs : List Submission) :
    ((∃ rep, get_single_report db student_id = .ok rep)
      ↔ ∃ s, db = some s ∧ s.status = "approved" ∧ s.student_id = student_id)
    ∧ ∀ s ∈ get_student_reports subs student_id,
        s.student_id = student_id ∧ s.status = "approved" := by
  constructor
  · constructor
    · rintro ⟨rep, hrep⟩
      cases db with
      | none => simp [get_single_report] at hrep
      | some sub =>
        rw [get_single_report] at hrep
        by_cases h1 : sub.status ≠ "approved"
        · rw [if_pos h1] at hrep
          exact absurd hrep (by simp)
        · rw [if_neg h1] at hrep
          by_cases h2 : sub.student_id ≠ student_id
          · rw [if_pos h2] at hrep
            exact absurd hrep (by simp)
          · exact ⟨sub, rfl, not_not.mp h1, not_not.mp h2⟩
    · rintro ⟨s, rfl, hs, hsid⟩
      exact ⟨_, by rw [get_single_report, if_neg (by simp [hs]), if_neg (by simp [hsid])]⟩
  · intro s hs
    rw [get_student_reports] at hs
    have hs' := (List.perm_insertionSort createdDesc _).mem_iff.mp hs
    rw [List.mem_filter] at hs'
    have := hs'.2
    simp only [Bool.and_eq_true, beq_iff_eq] at this
    exact this

/-- An approved submission of student "kid". -/
def w9sub : Submission :=
  { id := "r1", student_id := "kid", status := "approved", teacher_id := "t-owner" }

/-- Witness for the C9 theorem: the approved owned submission is
retrievable, and a listing over an approved and a pending submission
exposes only approved data of the requested student. -/
theorem parent_report_gating_witness :
    (∃ rep, get_single_report (some w9sub) "kid" = .ok rep)
    ∧ (w9sub.student_id = "kid" ∧ w9sub.status = "approved") :=
  ⟨(parent_report_gating (some w9sub) "kid" []).1.mpr ⟨w9sub, rfl, rfl, rfl⟩,
    (parent_report_gating (some w9sub) "kid" [w9sub, w5sub]).2 w9sub (by decide)⟩
